import Mathlib

/-!
Verification of the paine HTTP load-testing engine (src/main.rs).

The engine issues rate-paced HTTP GET requests for a fixed duration,
classifies each result into a Response variant, aggregates the outcomes
in a single consumer thread into a TestPlan record, and derives summary
metrics for display.

Shallow embedding conventions:
* unsigned machine integers (u16, u64, u128, usize) are modelled as Nat;
  the quantities involved never approach their overflow bounds in the
  claims considered, and usize division is Nat division;
* `HashMap<u16, usize>` is modelled by its count function `Nat → Nat`,
  an absent key mapping to 0 (matching `entry(code).or_insert(0)`);
* `Duration` values used in arithmetic are modelled as exact rational
  seconds;
* the f64 division used for throughput is modelled by `f64_div`, exact
  on the nonnegative finite operands that occur, with the IEEE special
  cases x/0 = +inf (x > 0) and 0/0 = NaN made explicit.
-/

/-- The constant MAX_THREADS (src/main.rs line 28), value 50. -/
def MAX_THREADS : Nat := 50

/-- The enum Response (src/main.rs lines 213-219): the classified outcome of
one HTTP call. `Success` carries the elapsed milliseconds and the status
code; `Error` carries a non-success status code. -/
inductive Response where
  | Error (status : Nat)
  | Success (millis : Nat) (status : Nat)
  | TimeoutError
  | ConnectionError
  | OtherError
deriving DecidableEq, Repr

/-- The struct TestPlan (src/main.rs lines 30-61): the CLI configuration
fields (url, rate, duration, timeout_secs) together with the running
statistics fields, which start empty/zero (structopt skip + Default). -/
structure TestPlan where
  url : String
  rate : Nat
  duration : Nat
  timeout_secs : Nat
  response_times : List Nat := []
  status_codes : Nat → Nat := fun _ => 0
  connect_errors : Nat := 0
  timeout_errors : Nat := 0
  other_errors : Nat := 0
  total_elapsed : ℚ := 0
  total_requests : Nat := 0
  date : String := ""

/-- Construction by TestPlan::from_args as structopt produces it: the four CLI fields are
set, every statistics field takes its Default value. -/
def TestPlan.from_args (url : String) (rate duration timeout_secs : Nat) : TestPlan :=
  { url := url, rate := rate, duration := duration, timeout_secs := timeout_secs }

/-- Method TestPlan::total_errors (src/main.rs lines 64-66). -/
def TestPlan.total_errors (p : TestPlan) : Nat :=
  p.connect_errors + p.timeout_errors + p.other_errors

/-- Method TestPlan::total_success (src/main.rs lines 84-86): the number of
recorded response times. -/
def TestPlan.total_success (p : TestPlan) : Nat :=
  p.response_times.length

/-- Method TestPlan::response_avg_min_max (src/main.rs lines 68-79): average by
integer (u128) division guarded on the empty case, min and max via
`iter().min()/max()` defaulting to 0 on the empty list. -/
def TestPlan.response_avg_min_max (p : TestPlan) : Nat × Nat × Nat :=
  let avg := if p.response_times.isEmpty then 0
    else p.response_times.sum / p.response_times.length
  let mn := p.response_times.min?.getD 0
  let mx := p.response_times.max?.getD 0
  (avg, mn, mx)

/-- A reqwest transport error, abstracted to the two predicates the code
inspects: `e.is_timeout()` and `e.is_connect()`. -/
structure TransportError where
  is_timeout : Bool
  is_connect : Bool
deriving DecidableEq, Repr

/-- The raw result of `client.get(url).send()`: either a response carrying
a status code, or a transport error. -/
inductive HttpCallResult where
  | ok (status : Nat)
  | err (e : TransportError)
deriving DecidableEq, Repr

/-- Predicate StatusCode::is_success() from the http crate: status in 200..300. -/
def is_success (status : Nat) : Bool :=
  decide (200 ≤ status) && decide (status < 300)

/-- The outcome classifier inside the worker closure of `do_requests`
(src/main.rs lines 236-261): a 2xx response becomes `Success` with the
elapsed milliseconds measured by the caller, any other response becomes
`Error` with its status, and a transport error is tested with
`is_timeout` first, then `is_connect`, else `OtherError`. -/
def classify (elapsed_millis : Nat) : HttpCallResult → Response
  | .ok status =>
      if is_success status then Response.Success elapsed_millis status
      else Response.Error status
  | .err e =>
      if e.is_timeout then Response.TimeoutError
      else if e.is_connect then Response.ConnectionError
      else Response.OtherError

/-- The update plan.status_codes.entry(code).or_insert(0); *entry += 1 on the count
function model of the HashMap. -/
def bump (m : Nat → Nat) (code : Nat) : Nat → Nat :=
  fun c => if c = code then m code + 1 else m c

/-- One iteration of the consumer loop in `handle_results` (src/main.rs
lines 268-287): increment `total_requests`, then update the statistics
according to the message variant. -/
def handleOne (p : TestPlan) (msg : Response) : TestPlan :=
  let p := { p with total_requests := p.total_requests + 1 }
  match msg with
  | Response.Success millis code =>
      { p with response_times := p.response_times ++ [millis],
               status_codes := bump p.status_codes code }
  | Response.Error code =>
      { p with other_errors := p.other_errors + 1,
               status_codes := bump p.status_codes code }
  | Response.OtherError => { p with other_errors := p.other_errors + 1 }
  | Response.ConnectionError => { p with connect_errors := p.connect_errors + 1 }
  | Response.TimeoutError => { p with timeout_errors := p.timeout_errors + 1 }

/-- The consumer loop handle_results (src/main.rs lines 267-288): the single consumer
drains the channel in delivery order, here given as the list of received
messages. -/
def handle_results (p : TestPlan) (msgs : List Response) : TestPlan :=
  msgs.foldl handleOne p

/-- The bail message for a non-positive rate (src/main.rs line 293). -/
def rateErrMsg : String := "<rate> must be greated than 0."

/-- The bail message for a non-positive timeout (src/main.rs line 296). -/
def timeoutErrMsg : String := "<timeout> must be greated than 0."

/-- A sample target URL used for the concrete states below. -/
def sampleUrl : String := "http://localhost:8080"

/-- The argument validation at the top of `main` (src/main.rs lines
290-297): bail if `rate <= 0`, then bail if `timeout_secs <= 0` (both are
unsigned, so `<= 0` means `= 0`). No other field is validated. -/
def validate (p : TestPlan) : Except String Unit :=
  if p.rate ≤ 0 then Except.error rateErrMsg
  else if p.timeout_secs ≤ 0 then Except.error timeoutErrMsg
  else Except.ok ()

/-- The scheduling policy abstraction. `ratePaced` is the policy
implemented by `do_requests` (src/main.rs lines 221-265): sleep `1/rate`
between submissions until `duration` elapses. `fixedIterations` is the
second policy described by the specification (`concurrency` workers each
performing `iterations` sequential GETs); it is included so that the
policy selected by the code can be compared against it. -/
inductive SchedulingPolicy where
  | ratePaced (rate : Nat) (duration : Nat)
  | fixedIterations (concurrency : Nat) (iterations : Nat)
deriving DecidableEq, Repr

/-- The dispatch performed by `main` (src/main.rs line 317): it
unconditionally spawns `do_requests(client, &url, rate, duration, tx2)`,
i.e. the rate-paced policy with the configured rate and duration. -/
def selectedPolicy (p : TestPlan) : SchedulingPolicy :=
  SchedulingPolicy.ratePaced p.rate p.duration

/-- The engine entry, abstracting `main` (src/main.rs lines 290-317) up to
the point where requests start: validation runs first and an error aborts
before any request is issued; otherwise the selected policy runs. -/
def engineRun (p : TestPlan) : Except String SchedulingPolicy :=
  match validate p with
  | Except.error e => Except.error e
  | Except.ok () => Except.ok (selectedPolicy p)

/-- The numeric part of the success cell in `draw_terminal` (src/main.rs
lines 148-157): `self.total_success() / self.total_requests() * 100`
computed in usize arithmetic. -/
def successPercent (p : TestPlan) : Nat :=
  p.total_success / p.total_requests * 100

/-- The numeric part of the errors cell in `draw_terminal` (src/main.rs
lines 129-141): `self.total_errors() / self.total_requests() * 100`
computed in usize arithmetic. -/
def errorPercent (p : TestPlan) : Nat :=
  p.total_errors / p.total_requests * 100

/-- Result of an f64 division with nonnegative finite operands: a finite
value, +infinity, or NaN. -/
inductive F64Val where
  | val (q : ℚ)
  | posInf
  | nan
deriving DecidableEq, Repr

/-- IEEE f64 division restricted to nonnegative finite operands, with the
quotient kept exact: x/0 is +infinity for x > 0 and NaN for x = 0. -/
def f64_div (a b : ℚ) : F64Val :=
  if b = 0 then (if a = 0 then F64Val.nan else F64Val.posInf)
  else F64Val.val (a / b)

/-- The throughput computation in `draw_terminal` (src/main.rs lines
143-147): `(self.total_success() as f64) / (self.total_elapsed.as_secs_f64())`,
performed unconditionally. -/
def throughput (p : TestPlan) : F64Val :=
  f64_div (p.total_success : ℚ) p.total_elapsed

/-- A concrete aggregator state with three recorded response times. -/
def samplePlan : TestPlan :=
  handle_results (TestPlan.from_args sampleUrl 10 60 10)
    [Response.Success 3 200, Response.Success 1 200, Response.Success 2 204]

/-- The aggregator state reached from the initial state by one success and
one connection error. -/
def mixedPlan : TestPlan :=
  handle_results (TestPlan.from_args sampleUrl 10 60 10)
    [Response.Success 5 200, Response.ConnectionError]

/-- The aggregator state with one recorded success while `total_elapsed`
is still 0 (as before the first tick of the display loop). -/
def zeroElapsedPlan : TestPlan :=
  handle_results (TestPlan.from_args sampleUrl 10 60 10)
    [Response.Success 7 200]

/-- State zeroElapsedPlan after the display loop has recorded 2 elapsed
seconds. -/
def elapsedPlan : TestPlan :=
  { zeroElapsedPlan with total_elapsed := 2 }

/-- The initial state: no outcome consumed, no time recorded. -/
def emptyZeroPlan : TestPlan :=
  TestPlan.from_args sampleUrl 10 60 10

/-- A configuration with positive rate and timeout but zero duration. -/
def zeroDurationPlan : TestPlan :=
  TestPlan.from_args sampleUrl 1 0 1

lemma list_min?_exists {l : List Nat} (h : l ≠ []) : ∃ m, l.min? = some m := by
  cases hm : l.min? with
  | none => exact absurd (List.min?_eq_none_iff.mp hm) h
  | some v => exact ⟨v, rfl⟩

lemma list_max?_exists {l : List Nat} (h : l ≠ []) : ∃ m, l.max? = some m := by
  cases hm : l.max? with
  | none => exact absurd (List.max?_eq_none_iff.mp hm) h
  | some v => exact ⟨v, rfl⟩

lemma length_mul_le_sum {l : List Nat} {m : Nat} (h : ∀ x ∈ l, m ≤ x) :
    l.length * m ≤ l.sum := by
  induction l with
  | nil => simp
  | cons a t ih =>
    have ha := h a (by simp)
    have ht := ih fun x hx => h x (by simp [hx])
    simp only [List.length_cons, List.sum_cons, Nat.succ_mul]
    omega

lemma sum_le_length_mul {l : List Nat} {M : Nat} (h : ∀ x ∈ l, x ≤ M) :
    l.sum ≤ l.length * M := by
  induction l with
  | nil => simp
  | cons a t ih =>
    have ha := h a (by simp)
    have ht := ih fun x hx => h x (by simp [hx])
    simp only [List.length_cons, List.sum_cons, Nat.succ_mul]
    omega

/-- C4: for every Stats state, the snapshot avg equals
sum(response_times) / len(response_times) when response_times is
non-empty and 0 when it is empty, and min/max equal the minimum/maximum
of response_times when non-empty and 0 when empty. -/
theorem avg_min_max_spec (p : TestPlan) :
    (p.response_times = [] → p.response_avg_min_max = (0, 0, 0))
  ∧ (p.response_times ≠ [] →
      p.response_avg_min_max.1 = p.response_times.sum / p.response_times.length
    ∧ (p.response_avg_min_max.2.1 ∈ p.response_times
        ∧ ∀ x ∈ p.response_times, p.response_avg_min_max.2.1 ≤ x)
    ∧ (p.response_avg_min_max.2.2 ∈ p.response_times
        ∧ ∀ x ∈ p.response_times, x ≤ p.response_avg_min_max.2.2)) := by
  constructor
  · intro h
    simp [TestPlan.response_avg_min_max, h]
  · intro h
    obtain ⟨mn, hmn⟩ := list_min?_exists h
    obtain ⟨mx, hmx⟩ := list_max?_exists h
    have h1 := List.min?_eq_some_iff'.mp hmn
    have h2 := List.max?_eq_some_iff'.mp hmx
    have hempty : p.response_times.isEmpty = false := by
      simp [List.isEmpty_iff, h]
    refine ⟨?_, ?_, ?_⟩
    · simp [TestPlan.response_avg_min_max, hempty]
    · simpa [TestPlan.response_avg_min_max, hmn] using h1
    · simpa [TestPlan.response_avg_min_max, hmx] using h2

theorem avg_min_max_spec_witness :
    samplePlan.response_avg_min_max.1
        = samplePlan.response_times.sum / samplePlan.response_times.length
  ∧ samplePlan.response_avg_min_max.2.1 ∈ samplePlan.response_times
  ∧ samplePlan.response_avg_min_max.2.2 ∈ samplePlan.response_times := by
  have h := (avg_min_max_spec samplePlan).2 (by decide)
  exact ⟨h.1, h.2.1.1, h.2.2.1⟩

/-- C9: for every Stats state with non-empty response_times the derived
avg lies between the derived min and max inclusive; when response_times
is empty, avg, min and max are all 0. -/
theorem avg_between_min_max (p : TestPlan) :
    (p.response_times ≠ [] →
        p.response_avg_min_max.2.1 ≤ p.response_avg_min_max.1
      ∧ p.response_avg_min_max.1 ≤ p.response_avg_min_max.2.2)
  ∧ (p.response_times = [] → p.response_avg_min_max = (0, 0, 0)) := by
  constructor
  · intro h
    obtain ⟨mn, hmn⟩ := list_min?_exists h
    obtain ⟨mx, hmx⟩ := list_max?_exists h
    obtain ⟨hmem, hlb⟩ := List.min?_eq_some_iff'.mp hmn
    obtain ⟨hmemx, hub⟩ := List.max?_eq_some_iff'.mp hmx
    have hlen : 0 < p.response_times.length := List.length_pos.mpr h
    have hempty : p.response_times.isEmpty = false := by
      simp [List.isEmpty_iff, h]
    rw [TestPlan.response_avg_min_max]
    simp only [hempty, Bool.false_eq_true, if_false, hmn, hmx, Option.getD_some]
    constructor
    · rw [Nat.le_div_iff_mul_le hlen, Nat.mul_comm]
      exact length_mul_le_sum hlb
    · have hs : p.response_times.sum ≤ p.response_times.length * mx :=
        sum_le_length_mul hub
      have hd : p.response_times.sum / p.response_times.length
          ≤ p.response_times.length * mx / p.response_times.length :=
        Nat.div_le_div_right hs
      rwa [Nat.mul_div_cancel_left _ hlen] at hd
  · intro h
    simp [TestPlan.response_avg_min_max, h]

theorem avg_between_min_max_witness :
    samplePlan.response_avg_min_max.2.1 ≤ samplePlan.response_avg_min_max.1
  ∧ samplePlan.response_avg_min_max.1 ≤ samplePlan.response_avg_min_max.2.2 :=
  (avg_between_min_max samplePlan).1 (by decide)

lemma handle_results_counts (msgs : List Response) (p : TestPlan) :
    (handle_results p msgs).total_requests = p.total_requests + msgs.length
  ∧ (handle_results p msgs).response_times.length
      + (handle_results p msgs).connect_errors
      + (handle_results p msgs).timeout_errors
      + (handle_results p msgs).other_errors
    = p.response_times.length + p.connect_errors + p.timeout_errors
      + p.other_errors + msgs.length := by
  induction msgs generalizing p with
  | nil => simp [handle_results]
  | cons m ms ih =>
    have h := ih (handleOne p m)
    simp only [handle_results, List.foldl_cons] at h ⊢
    cases m <;> simp [handleOne] at h ⊢ <;> omega

/-- C5: in every state reachable by the Aggregator processing a sequence
of Outcomes from the empty initial Stats,
total_success + total_errors ≤ total_requests; once the run is fully
drained the two sides are in fact equal. -/
theorem aggregator_conservation (url : String) (r d t : Nat) (msgs : List Response) :
    (handle_results (TestPlan.from_args url r d t) msgs).total_success
      + (handle_results (TestPlan.from_args url r d t) msgs).total_errors
      ≤ (handle_results (TestPlan.from_args url r d t) msgs).total_requests
  ∧ (handle_results (TestPlan.from_args url r d t) msgs).total_success
      + (handle_results (TestPlan.from_args url r d t) msgs).total_errors
      = (handle_results (TestPlan.from_args url r d t) msgs).total_requests := by
  have h := handle_results_counts msgs (TestPlan.from_args url r d t)
  have h1 : (TestPlan.from_args url r d t).total_requests = 0 := rfl
  have h2 : (TestPlan.from_args url r d t).response_times.length = 0 := rfl
  have h3 : (TestPlan.from_args url r d t).connect_errors = 0 := rfl
  have h4 : (TestPlan.from_args url r d t).timeout_errors = 0 := rfl
  have h5 : (TestPlan.from_args url r d t).other_errors = 0 := rfl
  rw [h1, h2, h3, h4, h5] at h
  simp only [TestPlan.total_success, TestPlan.total_errors]
  omega

/-- C10: total_requests is incremented exactly once per consumed Outcome,
so after processing any sequence of Outcomes from the empty initial Stats
the equality total_requests = len(response_times) + connect_errors +
timeout_errors + other_errors holds exactly, at every observable point. -/
theorem total_requests_counted_at_consumption (url : String) (r d t : Nat)
    (msgs : List Response) :
    (handle_results (TestPlan.from_args url r d t) msgs).total_requests = msgs.length
  ∧ (handle_results (TestPlan.from_args url r d t) msgs).total_requests
      = (handle_results (TestPlan.from_args url r d t) msgs).response_times.length
        + (handle_results (TestPlan.from_args url r d t) msgs).connect_errors
        + (handle_results (TestPlan.from_args url r d t) msgs).timeout_errors
        + (handle_results (TestPlan.from_args url r d t) msgs).other_errors := by
  have h := handle_results_counts msgs (TestPlan.from_args url r d t)
  have h1 : (TestPlan.from_args url r d t).total_requests = 0 := rfl
  have h2 : (TestPlan.from_args url r d t).response_times.length = 0 := rfl
  have h3 : (TestPlan.from_args url r d t).connect_errors = 0 := rfl
  have h4 : (TestPlan.from_args url r d t).timeout_errors = 0 := rfl
  have h5 : (TestPlan.from_args url r d t).other_errors = 0 := rfl
  rw [h1, h2, h3, h4, h5] at h
  omega

lemma is_success_iff (s : Nat) : is_success s = true ↔ (200 ≤ s ∧ s < 300) := by
  simp [is_success]

/-- C6: the classifier maps each raw HTTP call result to exactly one
Outcome: a 2xx response to Success with the measured latency and status,
any other response to the HTTP-error Outcome, a timeout transport failure
to Timeout, a (non-timeout) connection failure to ConnectFailure, and any
other transport failure to OtherFailure. -/
theorem classify_spec (elapsed status : Nat) (e : TransportError) :
    (200 ≤ status → status < 300 →
        classify elapsed (HttpCallResult.ok status) = Response.Success elapsed status)
  ∧ (¬ (200 ≤ status ∧ status < 300) →
        classify elapsed (HttpCallResult.ok status) = Response.Error status)
  ∧ (e.is_timeout = true →
        classify elapsed (HttpCallResult.err e) = Response.TimeoutError)
  ∧ (e.is_timeout = false → e.is_connect = true →
        classify elapsed (HttpCallResult.err e) = Response.ConnectionError)
  ∧ (e.is_timeout = false → e.is_connect = false →
        classify elapsed (HttpCallResult.err e) = Response.OtherError) := by
  refine ⟨fun h1 h2 => ?_, fun h => ?_, fun h => ?_,
      fun h1 h2 => ?_, fun h1 h2 => ?_⟩
  · simp [classify, (is_success_iff status).mpr ⟨h1, h2⟩]
  · have hf : is_success status = false := by
      cases hb : is_success status
      · rfl
      · exact absurd ((is_success_iff status).mp hb) h
    simp [classify, hf]
  · simp [classify, h]
  · simp [classify, h1, h2]
  · simp [classify, h1, h2]

theorem classify_spec_witness :
    classify 5 (HttpCallResult.ok 204) = Response.Success 5 204
  ∧ classify 5 (HttpCallResult.ok 404) = Response.Error 404
  ∧ classify 5 (HttpCallResult.err ⟨true, false⟩) = Response.TimeoutError
  ∧ classify 5 (HttpCallResult.err ⟨false, true⟩) = Response.ConnectionError
  ∧ classify 5 (HttpCallResult.err ⟨false, false⟩) = Response.OtherError :=
  ⟨(classify_spec 5 204 ⟨true, false⟩).1 (by decide) (by decide),
   (classify_spec 5 404 ⟨true, false⟩).2.1 (by decide),
   (classify_spec 5 404 ⟨true, false⟩).2.2.1 rfl,
   (classify_spec 5 404 ⟨false, true⟩).2.2.2.1 rfl rfl,
   (classify_spec 5 404 ⟨false, false⟩).2.2.2.2 rfl rfl⟩

/-- C7: processing an HTTP-error Outcome increments both the per-status
entry of status_codes and other_errors and records no latency; processing
a Success Outcome appends the latency to response_times and increments
the per-status entry of status_codes. -/
theorem handle_http_error_and_success (p : TestPlan) (millis code : Nat) :
    (handleOne p (Response.Error code)).other_errors = p.other_errors + 1
  ∧ (handleOne p (Response.Error code)).status_codes code = p.status_codes code + 1
  ∧ (handleOne p (Response.Error code)).response_times = p.response_times
  ∧ (handleOne p (Response.Success millis code)).response_times
      = p.response_times ++ [millis]
  ∧ (handleOne p (Response.Success millis code)).status_codes code
      = p.status_codes code + 1 := by
  refine ⟨rfl, ?_, rfl, rfl, ?_⟩ <;> simp [handleOne, bump]

/-- C1 counterexample: no run configuration selects a fixed
concurrency × fixed iterations policy; `main` dispatches `do_requests`
with the configured rate and duration unconditionally. -/
theorem no_fixed_iterations_policy :
    ¬ ∃ (p : TestPlan) (c i : Nat),
        selectedPolicy p = SchedulingPolicy.fixedIterations c i := by
  rintro ⟨p, c, i, h⟩
  simp [selectedPolicy] at h

/-- C1 amended: the engine supports a single scheduling policy; every run
either aborts during validation or runs the rate-paced fixed-duration
policy with the configured rate and duration. -/
theorem engine_single_policy (p : TestPlan) :
    (∃ e, engineRun p = Except.error e)
  ∨ engineRun p = Except.ok (SchedulingPolicy.ratePaced p.rate p.duration) := by
  rw [engineRun]
  cases hval : validate p with
  | error e => exact Or.inl ⟨e, rfl⟩
  | ok u => cases u; exact Or.inr rfl

/-- C2 counterexample: duration = 0 is non-positive, yet validation
passes it (only rate and timeout_secs are checked). -/
theorem validate_accepts_zero_duration :
    zeroDurationPlan.duration = 0 ∧ validate zeroDurationPlan = Except.ok () :=
  ⟨rfl, rfl⟩

/-- C2 amended: validation fails exactly when rate = 0 or timeout_secs = 0,
before any request is issued (the rate-paced dispatch runs only when
validation returned ok); duration is not validated and no
concurrency/iterations parameters exist. -/
theorem validate_iff_rate_timeout_pos (p : TestPlan) :
    (validate p = Except.ok () ↔ 0 < p.rate ∧ 0 < p.timeout_secs)
  ∧ (engineRun p = Except.ok (selectedPolicy p) ↔ validate p = Except.ok ()) := by
  constructor
  · rw [validate]
    split_ifs with h1 h2 <;> simp <;> omega
  · rw [engineRun]
    cases hval : validate p with
    | error e => simp
    | ok u => cases u; simp

/-- C3 (code bug): on the state with one success and one connection error
the code computes the success and error cells with usize integer
division, `total_success / total_requests * 100`, rendering 0 where the
exact ratio of the specification is 50. -/
theorem percent_integer_division_bug :
    mixedPlan.total_success = 1
  ∧ mixedPlan.total_requests = 2
  ∧ mixedPlan.total_errors = 1
  ∧ successPercent mixedPlan = 0
  ∧ errorPercent mixedPlan = 0
  ∧ (mixedPlan.total_success : ℚ) / (mixedPlan.total_requests : ℚ) * 100 = 50
  ∧ (mixedPlan.total_errors : ℚ) / (mixedPlan.total_requests : ℚ) * 100 = 50 := by
  have h1 : mixedPlan.total_success = 1 := rfl
  have h2 : mixedPlan.total_requests = 2 := rfl
  have h3 : mixedPlan.total_errors = 1 := rfl
  refine ⟨h1, h2, h3, rfl, rfl, ?_, ?_⟩
  · rw [h1, h2]; norm_num
  · rw [h3, h2]; norm_num

/-- C8 counterexample: with one recorded success and elapsed still 0 the
throughput division is performed anyway and yields +infinity, which is
what the report renders; the NaN/infinity case is reachable. -/
theorem throughput_division_unguarded :
    zeroElapsedPlan.total_elapsed = 0
  ∧ throughput zeroElapsedPlan = F64Val.posInf
  ∧ F64Val.posInf ≠ F64Val.val 0 := by
  have hs : zeroElapsedPlan.total_success = 1 := rfl
  have he : zeroElapsedPlan.total_elapsed = 0 := rfl
  refine ⟨he, ?_, by decide⟩
  rw [throughput, hs, he]
  norm_num [f64_div]

/-- C8 amended: the throughput metric equals
len(response_times) / elapsed_seconds whenever elapsed_seconds is
nonzero; when elapsed_seconds is 0 the division is performed regardless
and produces +infinity (some success recorded) or NaN (none), which
reaches the rendered output unguarded. -/
theorem throughput_formula (p : TestPlan) :
    (p.total_elapsed ≠ 0 →
        throughput p = F64Val.val ((p.total_success : ℚ) / p.total_elapsed))
  ∧ (p.total_elapsed = 0 → 0 < p.total_success → throughput p = F64Val.posInf)
  ∧ (p.total_elapsed = 0 → p.total_success = 0 → throughput p = F64Val.nan) := by
  refine ⟨fun h => ?_, fun h hs => ?_, fun h hs => ?_⟩
  · simp [throughput, f64_div, h]
  · have hne : (p.total_success : ℚ) ≠ 0 := by
      exact_mod_cast Nat.pos_iff_ne_zero.mp hs
    simp [throughput, f64_div, h, hne]
  · simp [throughput, f64_div, h, hs]

theorem throughput_formula_witness :
    throughput elapsedPlan
        = F64Val.val ((elapsedPlan.total_success : ℚ) / elapsedPlan.total_elapsed)
  ∧ throughput zeroElapsedPlan = F64Val.posInf
  ∧ throughput emptyZeroPlan = F64Val.nan :=
  ⟨(throughput_formula elapsedPlan).1 (by decide),
   (throughput_formula zeroElapsedPlan).2.1 rfl (by decide),
   (throughput_formula emptyZeroPlan).2.2 rfl rfl⟩
